import Mathlib

/-!
Shallow embedding of `bleuart.py`: a serial-port-style facade over a BLE
UART (Nordic UART Service) peripheral driven through a BGAPI adapter.

State flags, the inbound buffer, device/characteristic caches and the
transport calls the code makes are modelled explicitly; the transport
backend (pygatt) is an oracle record saying which transport operations
succeed.  Every operation returns the new instance state, the list of
transport-level calls it actually executed, and its result
(`Except Err _` models Python raise/return).
-/

namespace BleUart

/-- A received data chunk (an opaque byte sequence). -/
abbrev Chunk := List Nat

/-- A device descriptor as returned by `adapter.scan()`. -/
structure Device where
  name : String
  address : String
  rssi : Int
deriving DecidableEq, Repr

/-- Characteristic identifier of NUS_TX (uuid ...ca9e ending in 03). -/
def NUS_TX : Nat := 3

/-- Characteristic identifier of NUS_RX (uuid ...ca9e ending in 02). -/
def NUS_RX : Nat := 2

/-- The mutable instance state of a `bleuart` object. -/
structure St where
  started : Bool
  connected : Bool
  subscribedTX : Bool
  subscribedRX : Bool
  rssi : Int
  handleTX : Nat
  handleRX : Nat
  devices : List Device
  characteristics : List Nat
  name : Option String
  address : Option String
  buffer : List Chunk
deriving DecidableEq, Repr

/-- The state set up by `__init__`. -/
def initSt : St :=
  { started := false, connected := false, subscribedTX := false,
    subscribedRX := false, rssi := 0, handleTX := 0, handleRX := 0,
    devices := [], characteristics := [], name := none, address := none,
    buffer := [] }

/-- Transport-level calls the code can execute on the adapter / device. -/
inductive Call where
  | adapterStart | adapterStop | adapterScan
  | devConnect | devDisconnect
  | subTX | subRX | unsubTX | unsubRX
  | discoverChars | readRssi | readHandle
deriving DecidableEq, Repr

/-- Errors raised to the caller.  `transportError` is a raw transport
exception propagating uncaught; the others are the ValueError /
NotImplementedError messages the code raises, keyed by kind. -/
inductive Err where
  | invalidArgument | deviceNotFound | connectionFailed
  | channelUnavailable | subscriptionFailed | notImplemented
  | transportError
deriving DecidableEq, Repr

deriving instance DecidableEq for Except

/-- Oracle for the pygatt backend: which transport operations succeed,
and what scan / discovery / rssi / handle lookups return. -/
structure Transport where
  startOk : Bool
  stopOk : Bool
  scanOk : Bool
  scanResult : List Device
  connectOk : Bool
  disconnectOk : Bool
  subscribeTXOk : Bool
  subscribeRXOk : Bool
  unsubscribeTXOk : Bool
  unsubscribeRXOk : Bool
  discovered : List Nat
  deviceRssi : Int
  handleTXVal : Nat
  handleRXVal : Nat
deriving DecidableEq, Repr

/-- Python truthiness of the `name` / `address` attributes: `None` and
the empty string are falsy. -/
def falsyStr : Option String → Bool
  | none => true
  | some s => s = ""

/-- `_start`: if not started, try `adapter.start()`; a failure is logged
and swallowed (state stays Stopped), success sets `started`. -/
def start (tr : Transport) (s : St) : St × List Call :=
  if s.started then (s, [])
  else if tr.startOk then ({ s with started := true }, [Call.adapterStart])
  else (s, [Call.adapterStart])

/-- `_stop`: if started, call `adapter.stop()` and clear `started`.
There is no try/except here, so a throwing `adapter.stop()` propagates
(and `started` stays set, since the flag is assigned after the call). -/
def stop (tr : Transport) (s : St) : St × List Call × Except Err Unit :=
  if s.started then
    if tr.stopOk then ({ s with started := false }, [Call.adapterStop], Except.ok ())
    else (s, [Call.adapterStop], Except.error Err.transportError)
  else (s, [], Except.ok ())

/-- `_unsubscribe(mode)`: for each subscribed channel selected by `mode`,
try `device.unsubscribe`; failures are logged and swallowed, success
clears the subscription flag.  Never raises. -/
def unsubscribe (tr : Transport) (mode : List Char) (s : St) : St × List Call :=
  let p1 : St × List Call :=
    if mode.contains 'r' && s.subscribedTX then
      if tr.unsubscribeTXOk then ({ s with subscribedTX := false }, [Call.unsubTX])
      else (s, [Call.unsubTX])
    else (s, [])
  let p2 : St × List Call :=
    if mode.contains 'w' && p1.1.subscribedRX then
      if tr.unsubscribeRXOk then ({ p1.1 with subscribedRX := false }, [Call.unsubRX])
      else (p1.1, [Call.unsubRX])
    else (p1.1, [])
  (p2.1, p1.2 ++ p2.2)

/-- `disconnect()`: if connected, clear `connected` and then call
`device.disconnect()`; no try/except, so a throwing transport disconnect
propagates (after the flag was already cleared). -/
def disconnect (tr : Transport) (s : St) : St × List Call × Except Err Unit :=
  if s.connected then
    if tr.disconnectOk then
      ({ s with connected := false }, [Call.devDisconnect], Except.ok ())
    else
      ({ s with connected := false }, [Call.devDisconnect], Except.error Err.transportError)
  else (s, [], Except.ok ())

/-- `close()`: `_unsubscribe(); disconnect(); _stop()` in sequence; an
exception from `disconnect` or `_stop` propagates out of `close`. -/
def close (tr : Transport) (s : St) : St × List Call × Except Err Unit :=
  let p1 := unsubscribe tr ['r', 'w'] s
  let p2 := disconnect tr p1.1
  match p2.2.2 with
  | Except.error e => (p2.1, p1.2 ++ p2.2.1, Except.error e)
  | Except.ok _ =>
    let p3 := stop tr p2.1
    (p3.1, p1.2 ++ p2.2.1 ++ p3.2.1, p3.2.2)

/-- `_scan()`: ensure the adapter is started, then, if the device cache
is empty, `adapter.scan(timeout)` fills it; a throwing scan propagates. -/
def scanInternal (tr : Transport) (s : St) : St × List Call × Except Err Unit :=
  let p1 := if !s.started then start tr s else (s, [])
  if p1.1.devices = [] then
    if tr.scanOk then
      ({ p1.1 with devices := tr.scanResult }, p1.2 ++ [Call.adapterScan], Except.ok ())
    else (p1.1, p1.2 ++ [Call.adapterScan], Except.error Err.transportError)
  else (p1.1, p1.2, Except.ok ())

/-- `scan()` (public): same as `_scan` but returns the device list. -/
def scan (tr : Transport) (s : St) : St × List Call × Except Err (List Device) :=
  let p1 := if !s.started then start tr s else (s, [])
  if p1.1.devices = [] then
    if tr.scanOk then
      ({ p1.1 with devices := tr.scanResult }, p1.2 ++ [Call.adapterScan],
        Except.ok tr.scanResult)
    else (p1.1, p1.2 ++ [Call.adapterScan], Except.error Err.transportError)
  else (p1.1, p1.2, Except.ok p1.1.devices)

/-- `_get_address()`: if `_address` is falsy, scan if needed, then filter
the device list by exact name match and take the first match's address;
on zero matches, `_stop()`, force the `started` flag off and raise
DeviceNotFound (a throwing `_stop` propagates instead). -/
def getAddress (tr : Transport) (s : St) : St × List Call × Except Err Unit :=
  if falsyStr s.address then
    let p1 := if s.devices = [] then scanInternal tr s else (s, [], Except.ok ())
    match p1.2.2 with
    | Except.error e => (p1.1, p1.2.1, Except.error e)
    | Except.ok _ =>
      match (p1.1.devices.filter fun d => p1.1.name = some d.name) with
      | [] =>
        let p2 := stop tr p1.1
        match p2.2.2 with
        | Except.error e => (p2.1, p1.2.1 ++ p2.2.1, Except.error e)
        | Except.ok _ =>
          ({ p2.1 with started := false }, p1.2.1 ++ p2.2.1,
            Except.error Err.deviceNotFound)
      | d :: _ => ({ p1.1 with address := some d.address }, p1.2.1, Except.ok ())
  else (s, [], Except.ok ())

/-- `_subscribe_NUS_TX()`: try `device.subscribe(NUS_TX, callback)`; on
failure, lazily discover characteristics, diagnose SubscriptionFailed
(identifier found) vs ChannelUnavailable (not found), clear the
subscription, connection and `started` flags, call `_stop()` (a no-op,
since `started` was already cleared) and raise the diagnosed error. -/
def subscribeTX (tr : Transport) (s : St) : St × List Call × Except Err Unit :=
  if tr.subscribeTXOk then
    ({ s with subscribedTX := true }, [Call.subTX], Except.ok ())
  else
    let p1 : St × List Call :=
      if s.characteristics = [] then
        ({ s with characteristics := tr.discovered }, [Call.discoverChars])
      else (s, [])
    let e : Err :=
      if NUS_TX ∈ p1.1.characteristics then Err.subscriptionFailed
      else Err.channelUnavailable
    let s2 : St :=
      { p1.1 with subscribedTX := false, connected := false, started := false }
    let p3 := stop tr s2
    match p3.2.2 with
    | Except.error e2 => (p3.1, Call.subTX :: p1.2 ++ p3.2.1, Except.error e2)
    | Except.ok _ => (p3.1, Call.subTX :: p1.2 ++ p3.2.1, Except.error e)

/-- `_subscribe_NUS_RX()`: mirror of `_subscribe_NUS_TX` for NUS_RX. -/
def subscribeRX (tr : Transport) (s : St) : St × List Call × Except Err Unit :=
  if tr.subscribeRXOk then
    ({ s with subscribedRX := true }, [Call.subRX], Except.ok ())
  else
    let p1 : St × List Call :=
      if s.characteristics = [] then
        ({ s with characteristics := tr.discovered }, [Call.discoverChars])
      else (s, [])
    let e : Err :=
      if NUS_RX ∈ p1.1.characteristics then Err.subscriptionFailed
      else Err.channelUnavailable
    let s2 : St :=
      { p1.1 with subscribedRX := false, connected := false, started := false }
    let p3 := stop tr s2
    match p3.2.2 with
    | Except.error e2 => (p3.1, Call.subRX :: p1.2 ++ p3.2.1, Except.error e2)
    | Except.ok _ => (p3.1, Call.subRX :: p1.2 ++ p3.2.1, Except.error e)

/-- `connect(name, address, mode)`: ensure started; if both name and
address are falsy raise InvalidArgument; record them, resolve the
address, try the transport connect (timeout 15s, fixed address type).
On connect failure clear `connected`, `_stop()`, force `started` off and
raise ConnectionFailed; on success set `connected`, read rssi and the
two channel handles, then subscribe TX when mode has 'r' and RX when
mode has 'w'. -/
def connect (tr : Transport) (name address : Option String) (mode : List Char)
    (s : St) : St × List Call × Except Err Unit :=
  let p1 := if !s.started then start tr s else (s, [])
  if falsyStr name && falsyStr address then
    (p1.1, p1.2, Except.error Err.invalidArgument)
  else
    let s2 : St := { p1.1 with name := name, address := address }
    let p3 := getAddress tr s2
    match p3.2.2 with
    | Except.error e => (p3.1, p1.2 ++ p3.2.1, Except.error e)
    | Except.ok _ =>
      if tr.connectOk then
        let s4 : St :=
          { p3.1 with
            connected := true
            rssi := tr.deviceRssi
            handleTX := tr.handleTXVal
            handleRX := tr.handleRXVal }
        let c4 : List Call :=
          p1.2 ++ p3.2.1 ++ [Call.devConnect, Call.readRssi, Call.readHandle, Call.readHandle]
        let p5 := if mode.contains 'r' then subscribeTX tr s4 else (s4, [], Except.ok ())
        match p5.2.2 with
        | Except.error e => (p5.1, c4 ++ p5.2.1, Except.error e)
        | Except.ok _ =>
          let p6 := if mode.contains 'w' then subscribeRX tr p5.1 else (p5.1, [], Except.ok ())
          (p6.1, c4 ++ p5.2.1 ++ p6.2.1, p6.2.2)
      else
        let s4 : St := { p3.1 with connected := false }
        let p5 := stop tr s4
        match p5.2.2 with
        | Except.error e =>
          (p5.1, p1.2 ++ p3.2.1 ++ [Call.devConnect] ++ p5.2.1, Except.error e)
        | Except.ok _ =>
          ({ p5.1 with started := false },
            p1.2 ++ p3.2.1 ++ [Call.devConnect] ++ p5.2.1,
            Except.error Err.connectionFailed)

/-- `get_rssi()`: cached rssi when connected, soft failure otherwise. -/
def get_rssi (s : St) : Option Int :=
  if s.connected then some s.rssi else none

/-- `inWaiting()`: number of chunks in the buffer. -/
def inWaiting (s : St) : Nat := s.buffer.length

/-- `writeline(value)`: always raises NotImplementedError. -/
def writeline (value : Chunk) (s : St) : St × Except Err Unit :=
  (s, Except.error Err.notImplemented)

/-- `write(value)`: always raises NotImplementedError. -/
def write (value : Chunk) (s : St) : St × Except Err Unit :=
  (s, Except.error Err.notImplemented)

/-- `read()`: `self._buffer.pop()` when non-empty — Python `list.pop()`
removes and returns the LAST element — otherwise returns None. -/
def read (s : St) : St × Option Chunk :=
  if s.buffer.isEmpty then (s, none)
  else ({ s with buffer := s.buffer.dropLast }, s.buffer.getLast?)

/-- `_receive(handle, value)`: `self._buffer.insert(0, value)` — the
notification callback inserts at index 0, the front of the list. -/
def receive (handle : Nat) (value : Chunk) (s : St) : St :=
  { s with buffer := value :: s.buffer }

/-- `flush()`: no-op. -/
def flush (s : St) : St := s

/-- `reset_input_buffer()`: clears the buffer. -/
def reset_input_buffer (s : St) : St := { s with buffer := [] }

/-- `readline(max_reads)`: same body as `read()`; `max_reads` unused. -/
def readline (maxReads : Nat) (s : St) : St × Option Chunk :=
  if s.buffer.isEmpty then (s, none)
  else ({ s with buffer := s.buffer.dropLast }, s.buffer.getLast?)

/-- A transport where every operation succeeds; the scan finds one
device and the device exposes both NUS characteristics. -/
def trOk : Transport :=
  { startOk := true, stopOk := true, scanOk := true,
    scanResult := [{ name := "Nordic_UART", address := "AA:BB:CC:DD:EE:FF", rssi := -60 }],
    connectOk := true, disconnectOk := true,
    subscribeTXOk := true, subscribeRXOk := true,
    unsubscribeTXOk := true, unsubscribeRXOk := true,
    discovered := [NUS_RX, NUS_TX], deviceRssi := -60,
    handleTXVal := 17, handleRXVal := 14 }

/-- A started-and-connected instance state. -/
def stConn : St := { initSt with started := true, connected := true }

theorem buffer_start (tr : Transport) (s : St) : (start tr s).1.buffer = s.buffer := by
  unfold start; split_ifs <;> rfl

theorem buffer_stop (tr : Transport) (s : St) : (stop tr s).1.buffer = s.buffer := by
  unfold stop; split_ifs <;> rfl

theorem buffer_unsubscribe (tr : Transport) (m : List Char) (s : St) :
    (unsubscribe tr m s).1.buffer = s.buffer := by
  unfold unsubscribe; dsimp only; split_ifs <;> rfl

theorem buffer_disconnect (tr : Transport) (s : St) :
    (disconnect tr s).1.buffer = s.buffer := by
  unfold disconnect; split_ifs <;> rfl

theorem buffer_scanInternal (tr : Transport) (s : St) :
    (scanInternal tr s).1.buffer = s.buffer := by
  unfold scanInternal; dsimp only; split_ifs <;> simp [buffer_start]

theorem buffer_startIf (tr : Transport) (s : St) :
    ((if !s.started then start tr s else (s, [])).1).buffer = s.buffer := by
  split <;> simp [buffer_start]

theorem buffer_scanIf (tr : Transport) (s : St) :
    ((if s.devices = [] then scanInternal tr s
      else (s, [], Except.ok ())).1).buffer = s.buffer := by
  split <;> simp [buffer_scanInternal]

theorem buffer_charsIf (tr : Transport) (s : St) :
    ((if s.characteristics = [] then
        ({ s with characteristics := tr.discovered }, [Call.discoverChars])
      else (s, [])).1).buffer = s.buffer := by
  split <;> rfl

theorem buffer_getAddress (tr : Transport) (s : St) :
    (getAddress tr s).1.buffer = s.buffer := by
  unfold getAddress
  dsimp only
  split
  · split
    · simp [buffer_scanIf]
    · split
      · split <;> simp [buffer_stop, buffer_scanIf]
      · simp [buffer_scanIf]
  · rfl

theorem buffer_subscribeTX (tr : Transport) (s : St) :
    (subscribeTX tr s).1.buffer = s.buffer := by
  unfold subscribeTX
  dsimp only
  split
  · rfl
  · split <;> simp [buffer_stop, buffer_charsIf]

theorem buffer_subscribeRX (tr : Transport) (s : St) :
    (subscribeRX tr s).1.buffer = s.buffer := by
  unfold subscribeRX
  dsimp only
  split
  · rfl
  · split <;> simp [buffer_stop, buffer_charsIf]

theorem buffer_close (tr : Transport) (s : St) :
    (close tr s).1.buffer = s.buffer := by
  unfold close
  dsimp only
  split <;> simp [buffer_unsubscribe, buffer_disconnect, buffer_stop]

theorem buffer_scan (tr : Transport) (s : St) :
    (scan tr s).1.buffer = s.buffer := by
  unfold scan; dsimp only; split_ifs <;> simp [buffer_start]

theorem buffer_subTXIf (tr : Transport) (m : List Char) (s : St) :
    ((if m.contains 'r' then subscribeTX tr s
      else (s, [], Except.ok ())).1).buffer = s.buffer := by
  split <;> simp [buffer_subscribeTX]

theorem buffer_subRXIf (tr : Transport) (m : List Char) (s : St) :
    ((if m.contains 'w' then subscribeRX tr s
      else (s, [], Except.ok ())).1).buffer = s.buffer := by
  split <;> simp [buffer_subscribeRX]

theorem buffer_connect (tr : Transport) (name address : Option String)
    (mode : List Char) (s : St) :
    (connect tr name address mode s).1.buffer = s.buffer := by
  unfold connect
  dsimp only
  have hb := buffer_startIf tr s
  generalize hp : (if !s.started then start tr s else (s, [])) = p1 at hb ⊢
  split
  · exact hb
  · split
    · rw [buffer_getAddress]; exact hb
    · split
      · split
        · rw [buffer_subTXIf, buffer_getAddress]; exact hb
        · rw [buffer_subRXIf, buffer_subTXIf, buffer_getAddress]; exact hb
      · split <;> (rw [buffer_stop, buffer_getAddress]; exact hb)

/-- Claim C1, counterexample: the claim says that after `_receive(c1)`
then `_receive(c2)` the first `read()` returns `c2` (last-in first-out).
On the code, `_receive` inserts at index 0 while `list.pop()` removes
the last element, so the first `read()` returns `c1`, not `c2`. -/
theorem C1_counterexample :
    (read (receive 0 [2] (receive 0 [1] initSt))).2 = some [1] ∧
    (read (receive 0 [2] (receive 0 [1] initSt))).2 ≠ some [2] := by
  decide

/-- Claim C1 (amended): for every buffer state, `read()` removes and
returns the item at the buffer's back, i.e. the least recently received
chunk (first-in first-out with respect to the order in which the
`_receive` callback inserted chunks), and returns no value when the
buffer is empty.  In particular, after `_receive(c1)` then
`_receive(c2)`, the first `read()` returns `c1` and the second `c2`. -/
theorem C1_amended_theorem (s t : St) (l : List Chunk) (c c₁ c₂ : Chunk)
    (hb : s.buffer = l ++ [c]) (ht : t.buffer = []) :
    read s = ({ s with buffer := l }, some c) ∧
    read t = (t, none) ∧
    (read (receive 0 c₂ (receive 0 c₁ t))).2 = some c₁ ∧
    (read (read (receive 0 c₂ (receive 0 c₁ t))).1).2 = some c₂ := by
  refine ⟨?_, ?_, ?_, ?_⟩
  · unfold read
    rw [hb]
    simp [List.dropLast_concat, List.getLast?_concat]
  · unfold read
    rw [ht]
    rfl
  · simp [read, receive, ht]
  · simp [read, receive, ht]

/-- Claim C1, witness for the amended theorem at a concrete buffer. -/
theorem C1_witness :
    read { initSt with buffer := [[2], [1]] } =
      ({ initSt with buffer := [[2]] }, some [1]) ∧
    read initSt = (initSt, none) ∧
    (read (receive 0 [2] (receive 0 [1] initSt))).2 = some [1] ∧
    (read (read (receive 0 [2] (receive 0 [1] initSt))).1).2 = some [2] :=
  C1_amended_theorem { initSt with buffer := [[2], [1]] } initSt
    [[2]] [1] [1] [2] rfl rfl

/-- Claim C2: when `subscribe(NUS_TX)` fails, the error is
SubscriptionFailed if the TX identifier is among the discovered
characteristics and ChannelUnavailable otherwise, and the subscription,
connection and started flags all end cleared; but, contrary to the
claim, the transport-level `adapter.stop()` is NOT executed, because
`_started` is set to False before `_stop()` is invoked and `_stop()`
bails on its `if self._started` guard. -/
theorem C2_theorem :
    (subscribeTX { trOk with subscribeTXOk := false } stConn).2.2 =
      Except.error Err.subscriptionFailed ∧
    (subscribeTX { trOk with subscribeTXOk := false, discovered := [] } stConn).2.2 =
      Except.error Err.channelUnavailable ∧
    (subscribeTX { trOk with subscribeTXOk := false } stConn).1.subscribedTX = false ∧
    (subscribeTX { trOk with subscribeTXOk := false } stConn).1.connected = false ∧
    (subscribeTX { trOk with subscribeTXOk := false } stConn).1.started = false ∧
    stConn.started = true ∧
    Call.adapterStop ∉ (subscribeTX { trOk with subscribeTXOk := false } stConn).2.1 ∧
    Call.adapterStop ∉
      (subscribeTX { trOk with subscribeTXOk := false, discovered := [] } stConn).2.1 := by
  decide

/-- Claim C3, counterexample: `connect()` with neither name nor address
does raise InvalidArgument, but the adapter state is NOT unchanged: the
code starts the adapter before validating its arguments, so from a
Stopped adapter (with a transport whose start succeeds) the failed call
leaves the adapter Started. -/
theorem C3_counterexample :
    (connect trOk none none ['r'] initSt).2.2 = Except.error Err.invalidArgument ∧
    initSt.started = false ∧
    (connect trOk none none ['r'] initSt).1.started = true := by
  decide

/-- Claim C3 (amended): `connect()` with neither name nor address set
fails with InvalidArgument; the adapter state is unchanged when the
adapter was already Started, but a Stopped adapter is started before
the arguments are validated, so after the failed call the adapter is
Started exactly when it was Started before or the transport start
succeeded.  The connection state and the buffer are unchanged. -/
theorem C3_amended_theorem (tr : Transport) (s : St) (name address : Option String)
    (mode : List Char) (hn : falsyStr name = true) (ha : falsyStr address = true) :
    (connect tr name address mode s).2.2 = Except.error Err.invalidArgument ∧
    (connect tr name address mode s).1.started = (s.started || tr.startOk) ∧
    (connect tr name address mode s).1.connected = s.connected ∧
    (connect tr name address mode s).1.buffer = s.buffer := by
  cases hs : s.started <;> cases hst : tr.startOk <;>
    simp [connect, start, hn, ha, hs, hst]

/-- Claim C3, witness for the amended theorem at a concrete input. -/
theorem C3_witness :
    (connect trOk none none ['w'] initSt).2.2 = Except.error Err.invalidArgument ∧
    (connect trOk none none ['w'] initSt).1.started = (initSt.started || trOk.startOk) ∧
    (connect trOk none none ['w'] initSt).1.connected = initSt.connected ∧
    (connect trOk none none ['w'] initSt).1.buffer = initSt.buffer :=
  C3_amended_theorem trOk initSt none none ['w'] rfl rfl

/-- Claim C4, counterexample: `close()` is claimed never to propagate an
exception, but `disconnect()` has no try/except, so on a connected
instance whose transport disconnect throws, `close()` raises. -/
theorem C4_counterexample :
    (close { trOk with disconnectOk := false } stConn).2.2 =
      Except.error Err.transportError := by
  decide

theorem close_ok (tr : Transport) (s : St) (hd : tr.disconnectOk = true)
    (hs : tr.stopOk = true) : (close tr s).2.2 = Except.ok () := by
  rcases s with ⟨st, co, tx, rx, rs, hT, hR, dv, ch, nm, ad, bf⟩
  cases st <;> cases co <;> cases tx <;> cases rx <;>
    cases hu1 : tr.unsubscribeTXOk <;> cases hu2 : tr.unsubscribeRXOk <;>
    simp [close, unsubscribe, disconnect, stop, hd, hs, hu1, hu2]

/-- Claim C4 (amended): `close()` performs the full teardown sequence —
unsubscribe all channels, disconnect, stop adapter; the unsubscribe step
swallows its own transport failures, and when the transport disconnect
and adapter stop do not throw, `close()` returns normally with both
channels unsubscribed, the connection Disconnected, the adapter Stopped
and the buffer untouched; but an exception from the transport disconnect
or adapter stop propagates to the caller. -/
theorem C4_amended_theorem (tr : Transport) (s : St)
    (hd : tr.disconnectOk = true) (hs : tr.stopOk = true)
    (hu1 : tr.unsubscribeTXOk = true) (hu2 : tr.unsubscribeRXOk = true) :
    (close tr s).2.2 = Except.ok () ∧
    (close tr s).1.connected = false ∧
    (close tr s).1.started = false ∧
    (close tr s).1.subscribedTX = false ∧
    (close tr s).1.subscribedRX = false ∧
    (close tr s).1.buffer = s.buffer ∧
    (∀ u1 u2 : Bool,
      (close { tr with unsubscribeTXOk := u1, unsubscribeRXOk := u2 } s).2.2 =
        Except.ok ()) := by
  refine ⟨close_ok tr s hd hs, ?_, ?_, ?_, ?_, ?_, fun u1 u2 => close_ok _ s hd hs⟩ <;>
  · rcases s with ⟨st, co, tx, rx, rs, hT, hR, dv, ch, nm, ad, bf⟩
    cases st <;> cases co <;> cases tx <;> cases rx <;>
      simp [close, unsubscribe, disconnect, stop, hd, hs, hu1, hu2]

/-- Claim C4, witness for the amended theorem at a concrete input. -/
theorem C4_witness :
    (close trOk stConn).2.2 = Except.ok () ∧
    (close trOk stConn).1.connected = false ∧
    (close trOk stConn).1.started = false ∧
    (close trOk stConn).1.subscribedTX = false ∧
    (close trOk stConn).1.subscribedRX = false ∧
    (close trOk stConn).1.buffer = stConn.buffer ∧
    (∀ u1 u2 : Bool,
      (close { trOk with unsubscribeTXOk := u1, unsubscribeRXOk := u2 } stConn).2.2 =
        Except.ok ()) :=
  C4_amended_theorem trOk stConn rfl rfl rfl rfl

/-- Claim C5, counterexample: `disconnect()` is claimed never to throw,
but it has no try/except around the transport disconnect, so on a
connected instance whose transport disconnect throws, it raises. -/
theorem C5_counterexample :
    (disconnect { trOk with disconnectOk := false } stConn).2.2 =
      Except.error Err.transportError := by
  decide

/-- Claim C5 (amended): `disconnect()` is idempotent — a second call on
the already-disconnected state is a no-op with the same observable
state — and when connected it marks the connection Disconnected and
issues exactly one transport disconnect; it does not throw when the
transport disconnect succeeds, but a throwing transport disconnect
propagates (after the state was already marked Disconnected). -/
theorem C5_amended_theorem (tr : Transport) (s : St) (h : s.connected = true) :
    (disconnect tr s).1 = { s with connected := false } ∧
    (disconnect tr s).2.1 = [Call.devDisconnect] ∧
    (tr.disconnectOk = true → (disconnect tr s).2.2 = Except.ok ()) ∧
    (tr.disconnectOk = false →
      (disconnect tr s).2.2 = Except.error Err.transportError) ∧
    disconnect tr (disconnect tr s).1 = ((disconnect tr s).1, [], Except.ok ()) := by
  cases hd : tr.disconnectOk <;> simp [disconnect, h, hd]

/-- Claim C5, witness for the amended theorem at a concrete input. -/
theorem C5_witness :
    (disconnect trOk stConn).1 = { stConn with connected := false } ∧
    (disconnect trOk stConn).2.1 = [Call.devDisconnect] ∧
    (trOk.disconnectOk = true → (disconnect trOk stConn).2.2 = Except.ok ()) ∧
    (trOk.disconnectOk = false →
      (disconnect trOk stConn).2.2 = Except.error Err.transportError) ∧
    disconnect trOk (disconnect trOk stConn).1 =
      ((disconnect trOk stConn).1, [], Except.ok ()) :=
  C5_amended_theorem trOk stConn rfl

/-- Claim C6: whenever the transport-level connect throws (with the
address supplied, a transport whose start and stop succeed), `connect()`
marks the connection Disconnected, forces the adapter Stopped — here,
unlike the subscription path, the transport `adapter.stop()` really is
among the executed calls — and surfaces ConnectionFailed. -/
theorem C6_theorem (tr : Transport) (s : St) (name address : Option String)
    (mode : List Char) (ha : falsyStr address = false) (hc : tr.connectOk = false)
    (hst : tr.startOk = true) (hsp : tr.stopOk = true) :
    (connect tr name address mode s).2.2 = Except.error Err.connectionFailed ∧
    (connect tr name address mode s).1.connected = false ∧
    (connect tr name address mode s).1.started = false ∧
    Call.adapterStop ∈ (connect tr name address mode s).2.1 := by
  cases hs : s.started <;>
    simp [connect, start, getAddress, stop, ha, hc, hst, hsp, hs]

/-- Claim C6, witness at a concrete input. -/
theorem C6_witness :
    (connect { trOk with connectOk := false } none (some "aa") ['r'] initSt).2.2 =
      Except.error Err.connectionFailed ∧
    (connect { trOk with connectOk := false } none (some "aa") ['r'] initSt).1.connected =
      false ∧
    (connect { trOk with connectOk := false } none (some "aa") ['r'] initSt).1.started =
      false ∧
    Call.adapterStop ∈
      (connect { trOk with connectOk := false } none (some "aa") ['r'] initSt).2.1 :=
  C6_theorem { trOk with connectOk := false } initSt none (some "aa") ['r']
    rfl rfl rfl rfl

/-- Claim C7: on a fresh instance, after a successful
`connect(address, mode="r")` the buffer is empty, so `inWaiting()` is 0;
after the receive callback fires once with a chunk, `inWaiting()` is 1;
after one `read()`, `inWaiting()` is back to 0 and the value returned
by `read()` equals that chunk. -/
theorem C7_theorem (tr : Transport) (c : Chunk) (h1 : tr.startOk = true)
    (h2 : tr.connectOk = true) (h3 : tr.subscribeTXOk = true) :
    (connect tr none (some "aa") ['r'] initSt).2.2 = Except.ok () ∧
    inWaiting (connect tr none (some "aa") ['r'] initSt).1 = 0 ∧
    inWaiting (receive 0 c (connect tr none (some "aa") ['r'] initSt).1) = 1 ∧
    (read (receive 0 c (connect tr none (some "aa") ['r'] initSt).1)).2 = some c ∧
    inWaiting (read (receive 0 c (connect tr none (some "aa") ['r'] initSt).1)).1 = 0 := by
  simp [connect, start, getAddress, subscribeTX, stop, inWaiting, receive, read,
    initSt, falsyStr, h1, h2, h3]

/-- Claim C7, witness at a concrete transport and chunk. -/
theorem C7_witness :
    (connect trOk none (some "aa") ['r'] initSt).2.2 = Except.ok () ∧
    inWaiting (connect trOk none (some "aa") ['r'] initSt).1 = 0 ∧
    inWaiting (receive 0 [5] (connect trOk none (some "aa") ['r'] initSt).1) = 1 ∧
    (read (receive 0 [5] (connect trOk none (some "aa") ['r'] initSt).1)).2 = some [5] ∧
    inWaiting (read (receive 0 [5] (connect trOk none (some "aa") ['r'] initSt).1)).1 = 0 :=
  C7_theorem trOk [5] rfl rfl rfl

/-- Claim C8: `readline(max_reads)` is behaviorally identical to
`read()` on every buffer state, for every value of `max_reads`: its body
is the same buffer pop, it never waits for a line terminator, and the
`max_reads` argument is ignored. -/
theorem C8_theorem (s : St) (maxReads : Nat) : readline maxReads s = read s := rfl

/-- Claim C9: `write(value)` and `writeline(value)` always fail with
NotImplemented, for every argument and every instance state, and return
the state unchanged. -/
theorem C9_theorem (s : St) (v : Chunk) :
    write v s = (s, Except.error Err.notImplemented) ∧
    writeline v s = (s, Except.error Err.notImplemented) :=
  ⟨rfl, rfl⟩

/-- Claim C10: `connect()` and `disconnect()` never modify the inbound
buffer — in particular the buffer after a disconnect and a subsequent
connect equals the buffer before them — and neither do `close()`,
`scan()` or `flush()`; `_receive` only prepends; only `read()` (and the
identical `readline()`, by C8) and `reset_input_buffer()` remove data
from the buffer. -/
theorem C10_theorem (tr : Transport) (s : St) (name address : Option String)
    (mode : List Char) (hd : Nat) (v : Chunk) :
    (connect tr name address mode s).1.buffer = s.buffer ∧
    (disconnect tr s).1.buffer = s.buffer ∧
    (connect tr name address mode (disconnect tr s).1).1.buffer = s.buffer ∧
    (close tr s).1.buffer = s.buffer ∧
    (scan tr s).1.buffer = s.buffer ∧
    (receive hd v s).buffer = v :: s.buffer ∧
    (flush s).buffer = s.buffer ∧
    (read s).1.buffer = s.buffer.dropLast ∧
    (reset_input_buffer s).buffer = [] := by
  refine ⟨buffer_connect tr name address mode s, buffer_disconnect tr s, ?_,
    buffer_close tr s, buffer_scan tr s, rfl, rfl, ?_, rfl⟩
  · rw [buffer_connect, buffer_disconnect]
  · unfold read
    split
    · next h => rw [List.isEmpty_iff.mp h]; rfl
    · rfl

end BleUart
